import Mathlib

/-!
Shallow embedding of the retry / location-failover policy of
`sdk/tables/azure-data-tables/azure/data/tables/_policies.py`
(`is_exhausted`, `is_retry`, `TablesRetryPolicy.configure_retries`,
`TablesRetryPolicy._set_next_host_location`, `TablesRetryPolicy.increment`,
`TablesRetryPolicy.get_backoff_time`, `TablesRetryPolicy.send`).

Modelling conventions:
* Python ints are `Int`; attempt counters are `Nat`.
* The two-valued location enum `LocationMode` is an inductive type.
* Python exception classification (`isinstance(error, ServiceRequestError)`,
  `isinstance(error, ServiceResponseError)`, other `AzureError`) becomes the
  closed `ErrorKind` tag carried by `AzureErr`; `tag` distinguishes error
  instances so that "the last attempt's error is raised" is observable.
* A request body is either a bytes buffer (no `read` attribute; falsy when
  empty) or a stream (`read`/`tell`/`seek`); `tellResult = none` models
  `tell()` raising `AttributeError`/`UnsupportedOperation`, and
  `seekOk = false` models `seek` raising `UnsupportedOperation`/`ValueError`.
* The `hosts` dict maps location modes to hostname strings; an absent key is
  `none`, and Python truthiness of the dict and of its values is spelled out
  in `HostMap.dictTruthy`.
* `urlparse(...)._replace(netloc=...)` becomes a record update of `Url`,
  which keeps scheme, path, params, query and fragment unchanged.
* The transport (`self.next.send`) is an oracle `attempts : Nat → Attempt`
  giving the outcome of each wire send; `sendLoop` runs the retry loop of
  `TablesRetryPolicy.send` over that oracle with explicit fuel (the loop
  provably halts within `total.toNat + 2` iterations, see `sendSim`).
* `random.Random().uniform(a, b)` is modelled by the support interval
  `[a, b]` that `get_backoff_range` returns; with a zero jitter range the
  interval is degenerate and the drawn value is determined.
-/

inductive LocationMode where
  | primary
  | secondary
deriving DecidableEq, Repr

def LocationMode.flip : LocationMode → LocationMode
  | .primary => .secondary
  | .secondary => .primary

inductive ErrorKind where
  | serviceRequest
  | serviceResponse
  | otherAzure
deriving DecidableEq, Repr

structure AzureErr where
  kind : ErrorKind
  tag : Nat
deriving DecidableEq, Repr

structure Response where
  status : Nat
  tag : Nat
deriving DecidableEq, Repr

structure Url where
  scheme : String
  netloc : Option String
  path : String
  params : String
  query : String
  fragment : String
deriving DecidableEq, Repr

inductive Body where
  | bytes (nonempty : Bool)
  | stream (tellResult : Option Int) (seekOk : Bool)
deriving DecidableEq, Repr

def Body.hasRead : Body → Bool
  | .bytes _ => false
  | .stream _ _ => true

def Body.truthy : Body → Bool
  | .bytes ne => ne
  | .stream _ _ => true

/-- Result of calling `tell()` on the body, `none` when the body has no
`tell` or `tell` raises (`AttributeError` / `UnsupportedOperation`). -/
def Body.tellResult : Body → Option Int
  | .bytes _ => none
  | .stream t _ => t

/-- Whether `seek(pos, SEEK_SET)` on the body succeeds; `false` models the
`UnsupportedOperation` / `ValueError` exceptions caught at line 583. -/
def Body.seekOk : Body → Bool
  | .bytes _ => false
  | .stream _ ok => ok

structure Request where
  method : String
  url : Url
  body : Option Body
deriving DecidableEq, Repr

structure HostMap where
  primary : Option String
  secondary : Option String
deriving DecidableEq, Repr

def HostMap.values (h : HostMap) : List String :=
  h.primary.toList ++ h.secondary.toList

def HostMap.get : HostMap → LocationMode → Option String
  | h, .primary => h.primary
  | h, .secondary => h.secondary

def HostMap.dictTruthy (h : HostMap) : Bool :=
  !h.values.isEmpty && h.values.all (fun v => v ≠ "")

inductive HistoryEntry where
  | ofError (req : Request) (e : AzureErr)
  | ofResponse (req : Request) (r : Response)
deriving DecidableEq, Repr

structure RetrySettings where
  total : Int
  connect : Int
  read : Int
  status : Int
  retrySecondary : Bool
  mode : LocationMode
  hosts : Option HostMap
  bodyPosition : Option Int
  count : Nat
  history : List HistoryEntry
deriving DecidableEq, Repr

def is_exhausted (s : RetrySettings) : Bool :=
  let kept := [s.total, s.connect, s.read, s.status].filter (fun c => c ≠ 0)
  match kept.min? with
  | none => false
  | some m => m < 0

def is_retry (r : Response) (mode : LocationMode) : Bool :=
  let status := r.status
  if 300 ≤ status ∧ status < 500 then
    if status = 404 ∧ mode = .secondary then true
    else if status = 408 then true
    else false
  else if 500 ≤ status then
    if status = 501 ∨ status = 505 then false
    else true
  else false

structure TablesRetryPolicyConfig where
  initialBackoff : Int := 15
  incrementBase : Int := 3
  totalRetries : Int := 10
  connectRetries : Int := 3
  readRetries : Int := 3
  statusRetries : Int := 3
  retryToSecondary : Bool := false
  randomJitterRange : Int := 3
deriving DecidableEq, Repr

structure RequestOptions where
  retryTotal : Option Int := none
  retryConnect : Option Int := none
  retryRead : Option Int := none
  retryStatus : Option Int := none
  retryToSecondary : Option Bool := none
  locationMode : Option LocationMode := none
  hosts : Option HostMap := none
deriving DecidableEq, Repr

def configure_retries (p : TablesRetryPolicyConfig) (opts : RequestOptions)
    (req : Request) : RetrySettings :=
  let bodyPosition : Option Int :=
    match req.body with
    | some b => if b.hasRead then b.tellResult else none
    | none => none
  { total := opts.retryTotal.getD p.totalRetries
    connect := opts.retryConnect.getD p.connectRetries
    read := opts.retryRead.getD p.readRetries
    status := opts.retryStatus.getD p.statusRetries
    retrySecondary := opts.retryToSecondary.getD p.retryToSecondary
    mode := opts.locationMode.getD .primary
    hosts := opts.hosts
    bodyPosition := bodyPosition
    count := 0
    history := [] }

def set_next_host_location (s : RetrySettings) (req : Request) :
    RetrySettings × Request :=
  match s.hosts with
  | none => (s, req)
  | some h =>
    if h.dictTruthy then
      let newMode := s.mode.flip
      let s := { s with mode := newMode }
      let req := { req with url := { req.url with netloc := h.get newMode } }
      (s, req)
    else (s, req)

def get_backoff_base (initialBackoff incrementBase : Int) (count : Nat) : Int :=
  initialBackoff + (if count = 0 then 0 else incrementBase ^ count)

def get_backoff_range (initialBackoff incrementBase randomJitterRange : Int)
    (count : Nat) : Int × Int :=
  let backoff := get_backoff_base initialBackoff incrementBase count
  let start := if backoff > randomJitterRange then backoff - randomJitterRange else 0
  (start, backoff + randomJitterRange)

/-- Result record for `TablesRetryPolicy.increment`: the returned boolean,
plus the settings and request objects it mutated in place. -/
structure IncResult where
  more : Bool
  settings : RetrySettings
  request : Request
deriving DecidableEq, Repr

/-- Budget decrement and history bookkeeping: the first half of
`TablesRetryPolicy.increment` (lines 548-569). -/
def decrementCounts (s : RetrySettings) (req : Request)
    (resp : Option Response) (err : Option AzureErr) : RetrySettings :=
  let s := { s with total := s.total - 1 }
  match err with
  | some e =>
    match e.kind with
    | .serviceRequest =>
      { s with connect := s.connect - 1
               history := s.history ++ [.ofError req e] }
    | .serviceResponse =>
      { s with read := s.read - 1
               history := s.history ++ [.ofError req e] }
    | .otherAzure =>
      match resp with
      | some r =>
        { s with status := s.status - 1
                 history := s.history ++ [.ofResponse req r] }
      | none => s
  | none =>
    match resp with
    | some r =>
      { s with status := s.status - 1
               history := s.history ++ [.ofResponse req r] }
    | none => s

/-- Body rewind of `TablesRetryPolicy.increment` (lines 575-588): runs after
the failover decision, returns `False` when the body is a stream whose
position was never captured or refuses to seek, otherwise bumps `count` and
returns `True`. -/
def rewindAndCount (s : RetrySettings) (req : Request) : IncResult :=
  match req.body with
  | some b =>
    if b.truthy && b.hasRead then
      match s.bodyPosition with
      | none => { more := false, settings := s, request := req }
      | some _ =>
        if b.seekOk then
          { more := true, settings := { s with count := s.count + 1 },
            request := req }
        else { more := false, settings := s, request := req }
    else
      { more := true, settings := { s with count := s.count + 1 },
        request := req }
  | none =>
    { more := true, settings := { s with count := s.count + 1 },
      request := req }

/-- Non-exhausted tail of `TablesRetryPolicy.increment` (lines 571-587):
failover decision followed by the body rewind. -/
def incrementTail (s : RetrySettings) (req : Request) : IncResult :=
  let fr :=
    if req.method ≠ "PUT" ∧ s.retrySecondary then set_next_host_location s req
    else (s, req)
  rewindAndCount fr.1 fr.2

def increment (s : RetrySettings) (req : Request)
    (resp : Option Response) (err : Option AzureErr) : IncResult :=
  let s := decrementCounts s req resp err
  if is_exhausted s then
    { more := false, settings := s, request := req }
  else incrementTail s req

/-- Outcome of one wire send through the next pipeline stage. -/
inductive Attempt where
  | ok (r : Response)
  | exn (e : AzureErr)
deriving DecidableEq, Repr

inductive SendOutcome where
  | raised (e : AzureErr)
  | returned (r : Response) (locationMode : LocationMode)
deriving DecidableEq, Repr

structure SendResult where
  outcome : SendOutcome
  sends : Nat
  settings : RetrySettings
deriving DecidableEq, Repr

/-- The retry loop of `TablesRetryPolicy.send` (lines 590-634), run over the
transport oracle `attempts` with explicit fuel; `k` counts sends already
performed.  `none` means the fuel ran out (never happens for the fuel chosen
in `sendSim`).  A returned response is annotated with the final
`location_mode` (line 633); the final settings carry the `history` that
line 632 would attach when non-empty. -/
def sendLoop (attempts : Nat → Attempt) :
    Nat → RetrySettings → Request → Nat → Option SendResult
  | 0, _, _, _ => none
  | fuel + 1, s, req, k =>
    match attempts k with
    | .ok r =>
      if is_retry r s.mode then
        let out := increment s req (some r) none
        if out.more then sendLoop attempts fuel out.settings out.request (k + 1)
        else some { outcome := .returned r out.settings.mode, sends := k + 1,
                    settings := out.settings }
      else some { outcome := .returned r s.mode, sends := k + 1, settings := s }
    | .exn e =>
      let out := increment s req none (some e)
      if out.more then sendLoop attempts fuel out.settings out.request (k + 1)
      else some { outcome := .raised e, sends := k + 1, settings := out.settings }

def sendSim (attempts : Nat → Attempt) (s : RetrySettings) (req : Request) :
    Option SendResult :=
  sendLoop attempts (s.total.toNat + 2) s req 0

/-- The guard under which `increment` (line 572) together with
`_set_next_host_location` (line 475) actually performs a failover:
`request.method not in ["PUT"] and settings["retry_secondary"]` and
`settings["hosts"] and all(settings["hosts"].values())`. -/
def failoverApplies (s : RetrySettings) (req : Request) : Bool :=
  (decide (req.method ≠ "PUT")) && s.retrySecondary &&
    (match s.hosts with
     | some h => h.dictTruthy
     | none => false)

/-- One iteration of the retry loop viewed as a state step: `some` when the
attempt at index `k` fails retryably and `increment` grants another retry
(carrying the mutated settings and request), `none` when the loop halts at
this attempt (non-retryable response, or `increment` returns `False`). -/
def stepState (attempts : Nat → Attempt) (s : RetrySettings) (req : Request)
    (k : Nat) : Option (RetrySettings × Request) :=
  match attempts k with
  | .ok r =>
    if is_retry r s.mode then
      let out := increment s req (some r) none
      if out.more then some (out.settings, out.request) else none
    else none
  | .exn e =>
    let out := increment s req none (some e)
    if out.more then some (out.settings, out.request) else none

/-- Iterate `stepState` over the first `n` attempts starting at index `k`:
`some` exactly when all of them fail retryably with `increment` granting a
retry each time. -/
def runFailures (attempts : Nat → Attempt) :
    Nat → RetrySettings → Request → Nat → Option (RetrySettings × Request)
  | 0, s, req, _ => some (s, req)
  | n + 1, s, req, k =>
    match stepState attempts s req k with
    | some (s', req') => runFailures attempts n s' req' (k + 1)
    | none => none

/-! Concrete fixtures used by witnesses and counterexamples. -/

def exUrl : Url :=
  { scheme := "https", netloc := some "acct.table.core.windows.net",
    path := "/mytable", params := "", query := "st=abc", fragment := "" }

def exReqGet : Request := { method := "GET", url := exUrl, body := none }

def exReqPut : Request := { method := "PUT", url := exUrl, body := none }

def exReqDelete : Request := { method := "DELETE", url := exUrl, body := none }

def exHostsBoth : HostMap :=
  { primary := some "acct.table.core.windows.net"
    secondary := some "acct-secondary.table.core.windows.net" }

def exHostsOnlyPrimary : HostMap :=
  { primary := some "acct.table.core.windows.net", secondary := none }

def exErrConnect (tag : Nat) : AzureErr := { kind := .serviceRequest, tag := tag }

def exSettingsDefault : RetrySettings := configure_retries {} {} exReqGet

def exSettingsBothHosts : RetrySettings :=
  { exSettingsDefault with retrySecondary := true, hosts := some exHostsBoth }

def exSettingsOnlyPrimary : RetrySettings :=
  { exSettingsDefault with retrySecondary := true, hosts := some exHostsOnlyPrimary }

/-- Fixture for the `retry_total=3, retry_connect=1` scenario. -/
def exSettingsC4 : RetrySettings :=
  configure_retries { totalRetries := 3, connectRetries := 1 } {} exReqGet

/-- Transport oracle where every send fails with a distinct connect-phase
(`ServiceRequestError`) error. -/
def exAttemptsConnectErr : Nat → Attempt := fun k => .exn (exErrConnect k)

/-- Transport oracle: four connect-phase errors, then a 200 success. -/
def exAttemptsFourErrs : Nat → Attempt := fun k =>
  if k < 4 then .exn (exErrConnect k) else .ok { status := 200, tag := k }

/-- Stream body whose position was captured successfully and which rewinds. -/
def exBodyGood : Body := .stream (some 0) true

/-- Stream body whose `tell()` failed, so no position is ever captured. -/
def exBodyNoTell : Body := .stream none true

def exReqStreamNoTell : Request :=
  { method := "GET", url := exUrl, body := some exBodyNoTell }

def exErrOther : AzureErr := { kind := .otherAzure, tag := 7 }

/-- Settings whose connect budget is already at 0, one failure from negative. -/
def exSettingsConnZero : RetrySettings := { exSettingsDefault with connect := 0 }

/-- Transport oracle: two connect-phase errors, then a 200 success. -/
def exAttemptsTwoErrs : Nat → Attempt := fun k =>
  if k < 2 then .exn (exErrConnect k) else .ok { status := 200, tag := k }

/-- Transport oracle where every send yields a retryable 500 response. -/
def exAttempts500 : Nat → Attempt := fun k => .ok { status := 500, tag := k }

/-- State reached after the two failing attempts of `exAttemptsTwoErrs`. -/
def exRunTwo : RetrySettings × Request :=
  (runFailures exAttemptsTwoErrs 2 exSettingsDefault exReqGet 0).getD
    (exSettingsDefault, exReqGet)

/-- Result of a PUT request run against endless connect errors with
`retry_total=3, retry_connect=1`. -/
def exC4PutRes : SendResult :=
  (sendLoop exAttemptsConnectErr 5 exSettingsC4 exReqPut 0).getD
    { outcome := .raised (exErrConnect 0), sends := 0, settings := exSettingsC4 }

/-- Failover-enabled settings for a request with an unseekable stream body. -/
def exSettingsStreamBoth : RetrySettings :=
  { configure_retries {} {} exReqStreamNoTell with
      retrySecondary := true, hosts := some exHostsBoth }

/-! Helper lemmas about the embedded policy, shared by the claim theorems. -/

lemma decrementCounts_frame (s : RetrySettings) (req : Request)
    (resp : Option Response) (err : Option AzureErr) :
    (decrementCounts s req resp err).mode = s.mode ∧
    (decrementCounts s req resp err).retrySecondary = s.retrySecondary ∧
    (decrementCounts s req resp err).bodyPosition = s.bodyPosition ∧
    (decrementCounts s req resp err).count = s.count ∧
    (decrementCounts s req resp err).hosts = s.hosts := by
  unfold decrementCounts
  repeat' split
  all_goals exact ⟨rfl, rfl, rfl, rfl, rfl⟩

lemma set_next_host_location_frame (s : RetrySettings) (req : Request) :
    ((set_next_host_location s req).1.total = s.total ∧
     (set_next_host_location s req).1.connect = s.connect ∧
     (set_next_host_location s req).1.read = s.read ∧
     (set_next_host_location s req).1.status = s.status ∧
     (set_next_host_location s req).1.history = s.history ∧
     (set_next_host_location s req).1.bodyPosition = s.bodyPosition ∧
     (set_next_host_location s req).1.count = s.count ∧
     (set_next_host_location s req).1.retrySecondary = s.retrySecondary) ∧
    ((set_next_host_location s req).2.method = req.method ∧
     (set_next_host_location s req).2.body = req.body) := by
  unfold set_next_host_location
  repeat' split
  all_goals exact ⟨⟨rfl, rfl, rfl, rfl, rfl, rfl, rfl, rfl⟩, rfl, rfl⟩

lemma rewindAndCount_budget_frame (s : RetrySettings) (req : Request) :
    (rewindAndCount s req).settings.total = s.total ∧
    (rewindAndCount s req).settings.connect = s.connect ∧
    (rewindAndCount s req).settings.read = s.read ∧
    (rewindAndCount s req).settings.status = s.status ∧
    (rewindAndCount s req).settings.history = s.history ∧
    (rewindAndCount s req).settings.mode = s.mode ∧
    (rewindAndCount s req).request = req := by
  unfold rewindAndCount
  repeat' split
  all_goals exact ⟨rfl, rfl, rfl, rfl, rfl, rfl, rfl⟩

lemma increment_put_frame (s : RetrySettings) (req : Request)
    (resp : Option Response) (err : Option AzureErr)
    (h : req.method = "PUT") :
    (increment s req resp err).settings.mode = s.mode ∧
    (increment s req resp err).request = req := by
  have hd := decrementCounts_frame s req resp err
  unfold increment incrementTail
  dsimp only
  have hg : ¬(req.method ≠ "PUT" ∧
      (decrementCounts s req resp err).retrySecondary = true) := by
    simp [h]
  rw [if_neg hg]
  split
  · exact ⟨hd.1, rfl⟩
  · have hr := rewindAndCount_budget_frame (decrementCounts s req resp err) req
    exact ⟨hr.2.2.2.2.2.1.trans hd.1, hr.2.2.2.2.2.2⟩


lemma sendLoop_succ (attempts : Nat → Attempt) (fuel : Nat)
    (s : RetrySettings) (req : Request) (k : Nat) :
    sendLoop attempts (fuel + 1) s req k =
      (match attempts k with
       | .ok r =>
         if is_retry r s.mode then
           let out := increment s req (some r) none
           if out.more then sendLoop attempts fuel out.settings out.request (k + 1)
           else some { outcome := .returned r out.settings.mode, sends := k + 1,
                       settings := out.settings }
         else some { outcome := .returned r s.mode, sends := k + 1, settings := s }
       | .exn e =>
         let out := increment s req none (some e)
         if out.more then sendLoop attempts fuel out.settings out.request (k + 1)
         else some { outcome := .raised e, sends := k + 1,
                     settings := out.settings }) := rfl

lemma sendLoop_halt_exn (attempts : Nat → Attempt) (fuel : Nat)
    (s : RetrySettings) (req : Request) (k : Nat) (e : AzureErr)
    (hA : attempts k = .exn e)
    (hm : (increment s req none (some e)).more = false) :
    sendLoop attempts (fuel + 1) s req k =
      some { outcome := .raised e, sends := k + 1,
             settings := (increment s req none (some e)).settings } := by
  rw [sendLoop_succ, hA]
  dsimp only
  simp [hm]

lemma sendLoop_halt_resp (attempts : Nat → Attempt) (fuel : Nat)
    (s : RetrySettings) (req : Request) (k : Nat) (r : Response)
    (hA : attempts k = .ok r) (hr : is_retry r s.mode = true)
    (hm : (increment s req (some r) none).more = false) :
    sendLoop attempts (fuel + 1) s req k =
      some { outcome := .returned r (increment s req (some r) none).settings.mode,
             sends := k + 1,
             settings := (increment s req (some r) none).settings } := by
  rw [sendLoop_succ, hA]
  dsimp only
  simp [hr, hm]

lemma sendLoop_halt_nonretry (attempts : Nat → Attempt) (fuel : Nat)
    (s : RetrySettings) (req : Request) (k : Nat) (r : Response)
    (hA : attempts k = .ok r) (hr : is_retry r s.mode = false) :
    sendLoop attempts (fuel + 1) s req k =
      some { outcome := .returned r s.mode, sends := k + 1, settings := s } := by
  rw [sendLoop_succ, hA]
  dsimp only
  simp [hr]

lemma sendLoop_step_some (attempts : Nat → Attempt) (fuel : Nat)
    (s : RetrySettings) (req : Request) (k : Nat)
    (s' : RetrySettings) (req' : Request)
    (h : stepState attempts s req k = some (s', req')) :
    sendLoop attempts (fuel + 1) s req k =
      sendLoop attempts fuel s' req' (k + 1) := by
  unfold stepState at h
  cases hA : attempts k with
  | ok r =>
    rw [hA] at h
    dsimp only at h
    by_cases hr : is_retry r s.mode = true
    · rw [if_pos hr] at h
      by_cases hm : (increment s req (some r) none).more = true
      · rw [if_pos hm] at h
        rw [Option.some_inj, Prod.ext_iff] at h
        dsimp only at h
        rw [sendLoop_succ, hA]
        dsimp only
        rw [if_pos hr, if_pos hm, h.1, h.2]
      · rw [if_neg hm] at h
        exact absurd h (by simp)
    · rw [if_neg hr] at h
      exact absurd h (by simp)
  | exn e =>
    rw [hA] at h
    dsimp only at h
    by_cases hm : (increment s req none (some e)).more = true
    · rw [if_pos hm] at h
      rw [Option.some_inj, Prod.ext_iff] at h
      dsimp only at h
      rw [sendLoop_succ, hA]
      dsimp only
      rw [if_pos hm, h.1, h.2]
    · rw [if_neg hm] at h
      exact absurd h (by simp)

lemma sendLoop_step_none (attempts : Nat → Attempt) (fuel : Nat)
    (s : RetrySettings) (req : Request) (k : Nat)
    (h : stepState attempts s req k = none) :
    ∃ res, sendLoop attempts (fuel + 1) s req k = some res ∧
      res.sends = k + 1 := by
  unfold stepState at h
  cases hA : attempts k with
  | ok r =>
    rw [hA] at h
    dsimp only at h
    by_cases hr : is_retry r s.mode = true
    · rw [if_pos hr] at h
      by_cases hm : (increment s req (some r) none).more = true
      · rw [if_pos hm] at h
        exact absurd h (by simp)
      · exact ⟨_, sendLoop_halt_resp attempts fuel s req k r hA hr
          (by simpa using hm), rfl⟩
    · exact ⟨_, sendLoop_halt_nonretry attempts fuel s req k r hA
        (by simpa using hr), rfl⟩
  | exn e =>
    rw [hA] at h
    dsimp only at h
    by_cases hm : (increment s req none (some e)).more = true
    · rw [if_pos hm] at h
      exact absurd h (by simp)
    · exact ⟨_, sendLoop_halt_exn attempts fuel s req k e hA
        (by simpa using hm), rfl⟩

lemma is_exhausted_iff (s : RetrySettings) :
    is_exhausted s = true ↔
      (s.total < 0 ∨ s.connect < 0 ∨ s.read < 0 ∨ s.status < 0) := by
  unfold is_exhausted
  by_cases h1 : s.total = 0 <;> by_cases h2 : s.connect = 0 <;>
    by_cases h3 : s.read = 0 <;> by_cases h4 : s.status = 0 <;>
    simp [h1, h2, h3, h4, List.filter, List.min?, List.foldl] <;> omega

lemma set_next_host_location_flips (s : RetrySettings) (req : Request)
    (h : HostMap) (hh : s.hosts = some h) (ht : h.dictTruthy = true) :
    set_next_host_location s req =
      ({ s with mode := s.mode.flip },
       { req with url := { req.url with netloc := h.get s.mode.flip } }) := by
  unfold set_next_host_location
  rw [hh]
  simp [ht]

lemma set_next_host_location_noflip (s : RetrySettings) (req : Request)
    (hno : (match s.hosts with
            | some h => h.dictTruthy
            | none => false) = false) :
    set_next_host_location s req = (s, req) := by
  unfold set_next_host_location
  cases hh : s.hosts with
  | none => rfl
  | some h =>
    rw [hh] at hno
    dsimp only at hno
    simp [hno]

lemma rewindAndCount_unrewindable (s : RetrySettings) (req : Request) (b : Body)
    (hb : req.body = some b) (hr : b.hasRead = true)
    (h : s.bodyPosition = none ∨ b.seekOk = false) :
    (rewindAndCount s req).more = false := by
  unfold rewindAndCount
  rw [hb]
  have htr : b.truthy = true := by
    cases b <;> simp_all [Body.hasRead, Body.truthy]
  rcases h with hpos | hseek
  · simp [htr, hr, hpos]
  · cases hp : s.bodyPosition with
    | none => simp [htr, hr, hp]
    | some p => simp [htr, hr, hp, hseek]

lemma incrementTail_unrewindable (s : RetrySettings) (req : Request) (b : Body)
    (hb : req.body = some b) (hr : b.hasRead = true)
    (h : s.bodyPosition = none ∨ b.seekOk = false) :
    (incrementTail s req).more = false := by
  unfold incrementTail
  dsimp only
  by_cases hg : (req.method ≠ "PUT" ∧ s.retrySecondary = true)
  · rw [if_pos hg]
    obtain ⟨⟨_, _, _, _, _, hbp, _, _⟩, _, hbd⟩ := set_next_host_location_frame s req
    exact rewindAndCount_unrewindable _ _ b (by rw [hbd]; exact hb) hr
      (by rcases h with h | h
          · exact Or.inl (by rw [hbp]; exact h)
          · exact Or.inr h)
  · rw [if_neg hg]
    exact rewindAndCount_unrewindable s req b hb hr h

lemma increment_unrewindable (s : RetrySettings) (req : Request)
    (resp : Option Response) (err : Option AzureErr) (b : Body)
    (hb : req.body = some b) (hr : b.hasRead = true)
    (h : s.bodyPosition = none ∨ b.seekOk = false) :
    (increment s req resp err).more = false := by
  unfold increment
  dsimp only
  split
  · rfl
  · obtain ⟨_, _, hbp, _, _⟩ := decrementCounts_frame s req resp err
    exact incrementTail_unrewindable _ _ b hb hr
      (by rcases h with h | h
          · exact Or.inl (hbp.trans h)
          · exact Or.inr h)

lemma increment_halts_of_negative (s : RetrySettings) (req : Request)
    (resp : Option Response) (err : Option AzureErr)
    (h : (decrementCounts s req resp err).total < 0 ∨
         (decrementCounts s req resp err).connect < 0 ∨
         (decrementCounts s req resp err).read < 0 ∨
         (decrementCounts s req resp err).status < 0) :
    (increment s req resp err).more = false := by
  have hex : is_exhausted (decrementCounts s req resp err) = true :=
    (is_exhausted_iff _).mpr h
  unfold increment
  simp [hex]

lemma failoverApplies_decompose (s : RetrySettings) (req : Request)
    (h : failoverApplies s req = true) :
    req.method ≠ "PUT" ∧ s.retrySecondary = true ∧
      ∃ hm, s.hosts = some hm ∧ hm.dictTruthy = true := by
  unfold failoverApplies at h
  cases hh : s.hosts with
  | none => rw [hh] at h; simp_all
  | some hm =>
    rw [hh] at h
    simp only [Bool.and_eq_true, decide_eq_true_eq] at h
    exact ⟨h.1.1, h.1.2, hm, rfl, h.2⟩

lemma increment_failover_pos (s : RetrySettings) (req : Request)
    (resp : Option Response) (err : Option AzureErr)
    (hnotex : is_exhausted (decrementCounts s req resp err) = false)
    (happ : failoverApplies s req = true) :
    (increment s req resp err).settings.mode = s.mode.flip ∧
    (∀ hm, s.hosts = some hm →
      (increment s req resp err).request.url.netloc = hm.get s.mode.flip) ∧
    (increment s req resp err).request.url.scheme = req.url.scheme ∧
    (increment s req resp err).request.url.path = req.url.path ∧
    (increment s req resp err).request.url.params = req.url.params ∧
    (increment s req resp err).request.url.query = req.url.query ∧
    (increment s req resp err).request.url.fragment = req.url.fragment ∧
    (increment s req resp err).request.method = req.method ∧
    (increment s req resp err).request.body = req.body := by
  obtain ⟨hput, hsec, hm0, hh0, ht0⟩ := failoverApplies_decompose s req happ
  obtain ⟨hdm, hdrs, hdbp, hdc, hdh⟩ := decrementCounts_frame s req resp err
  unfold increment incrementTail
  simp only [hnotex, Bool.false_eq_true, if_false]
  rw [if_pos ⟨hput, by rw [hdrs]; exact hsec⟩]
  rw [set_next_host_location_flips _ _ hm0 (by rw [hdh]; exact hh0) ht0]
  dsimp only
  obtain ⟨hb1, hb2, hb3, hb4, hb5, hb6, hreq⟩ :=
    rewindAndCount_budget_frame
      { decrementCounts s req resp err with
          mode := (decrementCounts s req resp err).mode.flip }
      { req with url := { req.url with
          netloc := hm0.get (decrementCounts s req resp err).mode.flip } }
  refine ⟨hb6.trans (by rw [hdm]), ?_, ?_, ?_, ?_, ?_, ?_, ?_, ?_⟩
  · intro hm hh
    rw [hh0] at hh
    have : hm0 = hm := Option.some_inj.mp hh
    subst this
    rw [hreq, hdm]
  · rw [hreq]
  · rw [hreq]
  · rw [hreq]
  · rw [hreq]
  · rw [hreq]
  · rw [hreq]
  · rw [hreq]

lemma increment_failover_neg (s : RetrySettings) (req : Request)
    (resp : Option Response) (err : Option AzureErr)
    (hnotex : is_exhausted (decrementCounts s req resp err) = false)
    (happ : failoverApplies s req = false) :
    (increment s req resp err).settings.mode = s.mode ∧
    (increment s req resp err).request = req := by
  obtain ⟨hdm, hdrs, hdbp, hdc, hdh⟩ := decrementCounts_frame s req resp err
  unfold increment incrementTail
  simp only [hnotex, Bool.false_eq_true, if_false]
  unfold failoverApplies at happ
  by_cases hg : (req.method ≠ "PUT" ∧
      (decrementCounts s req resp err).retrySecondary = true)
  · rw [if_pos hg]
    have hmatch : (match s.hosts with
        | some h => h.dictTruthy
        | none => false) = false := by
      rcases hg with ⟨h1, h2⟩
      rw [hdrs] at h2
      have hA : decide (req.method ≠ "PUT") = true := by simp [h1]
      rw [hA, h2] at happ
      simpa using happ
    have hmatch2 : (match (decrementCounts s req resp err).hosts with
        | some h => h.dictTruthy
        | none => false) = false := by rw [hdh]; exact hmatch
    rw [set_next_host_location_noflip _ _ hmatch2]
    dsimp only
    obtain ⟨_, _, _, _, _, hb6, hreq⟩ :=
      rewindAndCount_budget_frame (decrementCounts s req resp err) req
    exact ⟨hb6.trans hdm, hreq⟩
  · rw [if_neg hg]
    dsimp only
    obtain ⟨_, _, _, _, _, hb6, hreq⟩ :=
      rewindAndCount_budget_frame (decrementCounts s req resp err) req
    exact ⟨hb6.trans hdm, hreq⟩

lemma decrementCounts_other_none (s : RetrySettings) (req : Request)
    (e : AzureErr) (hk : e.kind = .otherAzure) :
    decrementCounts s req none (some e) = { s with total := s.total - 1 } := by
  unfold decrementCounts
  dsimp only
  rw [hk]

lemma incrementTail_budget_frame (s : RetrySettings) (req : Request) :
    (incrementTail s req).settings.total = s.total ∧
    (incrementTail s req).settings.connect = s.connect ∧
    (incrementTail s req).settings.read = s.read ∧
    (incrementTail s req).settings.status = s.status ∧
    (incrementTail s req).settings.history = s.history := by
  unfold incrementTail
  dsimp only
  by_cases hg : (req.method ≠ "PUT" ∧ s.retrySecondary = true)
  · rw [if_pos hg]
    obtain ⟨⟨ht, hc, hrd, hst, hh, _, _, _⟩, _, _⟩ :=
      set_next_host_location_frame s req
    obtain ⟨hb1, hb2, hb3, hb4, hb5, _, _⟩ :=
      rewindAndCount_budget_frame (set_next_host_location s req).1
        (set_next_host_location s req).2
    exact ⟨hb1.trans ht, hb2.trans hc, hb3.trans hrd, hb4.trans hst,
      hb5.trans hh⟩
  · rw [if_neg hg]
    obtain ⟨hb1, hb2, hb3, hb4, hb5, _, _⟩ := rewindAndCount_budget_frame s req
    exact ⟨hb1, hb2, hb3, hb4, hb5⟩

lemma increment_other_error_frame (s : RetrySettings) (req : Request)
    (e : AzureErr) (hk : e.kind = .otherAzure) :
    (increment s req none (some e)).settings.total = s.total - 1 ∧
    (increment s req none (some e)).settings.connect = s.connect ∧
    (increment s req none (some e)).settings.read = s.read ∧
    (increment s req none (some e)).settings.status = s.status ∧
    (increment s req none (some e)).settings.history = s.history := by
  unfold increment
  dsimp only
  rw [decrementCounts_other_none s req e hk]
  split
  · exact ⟨rfl, rfl, rfl, rfl, rfl⟩
  · obtain ⟨hb1, hb2, hb3, hb4, hb5⟩ :=
      incrementTail_budget_frame { s with total := s.total - 1 } req
    exact ⟨hb1, hb2, hb3, hb4, hb5⟩

lemma sendLoop_put_mode (attempts : Nat → Attempt) :
    ∀ (fuel : Nat) (s : RetrySettings) (req : Request) (k : Nat)
      (res : SendResult),
      req.method = "PUT" → sendLoop attempts fuel s req k = some res →
      res.settings.mode = s.mode := by
  intro fuel
  induction fuel with
  | zero =>
    intro s req k res _ hres
    exact absurd hres (by simp [sendLoop])
  | succ n ih =>
    intro s req k res hput hres
    rw [sendLoop_succ] at hres
    cases hA : attempts k with
    | ok r =>
      rw [hA] at hres
      dsimp only at hres
      by_cases hr : is_retry r s.mode = true
      · rw [if_pos hr] at hres
        have hpf := increment_put_frame s req (some r) none hput
        by_cases hm : (increment s req (some r) none).more = true
        · rw [if_pos hm] at hres
          have hmode := ih _ _ _ _ (by rw [hpf.2]; exact hput) hres
          rw [hmode, hpf.1]
        · rw [if_neg hm] at hres
          rw [Option.some_inj] at hres
          rw [← hres]
          exact hpf.1
      · rw [if_neg hr] at hres
        rw [Option.some_inj] at hres
        rw [← hres]
    | exn e =>
      rw [hA] at hres
      dsimp only at hres
      have hpf := increment_put_frame s req none (some e) hput
      by_cases hm : (increment s req none (some e)).more = true
      · rw [if_pos hm] at hres
        have hmode := ih _ _ _ _ (by rw [hpf.2]; exact hput) hres
        rw [hmode, hpf.1]
      · rw [if_neg hm] at hres
        rw [Option.some_inj] at hres
        rw [← hres]
        exact hpf.1

lemma sendLoop_after_failures (attempts : Nat → Attempt) :
    ∀ (N fuel : Nat) (s : RetrySettings) (req : Request) (k : Nat)
      (sN : RetrySettings) (reqN : Request),
      runFailures attempts N s req k = some (sN, reqN) →
      stepState attempts sN reqN (k + N) = none →
      N + 1 ≤ fuel →
      (sendLoop attempts fuel s req k).map SendResult.sends = some (k + N + 1) := by
  intro N
  induction N with
  | zero =>
    intro fuel s req k sN reqN hrun hhalt hfuel
    unfold runFailures at hrun
    rw [Option.some_inj, Prod.ext_iff] at hrun
    dsimp only at hrun
    obtain ⟨fuel', rfl⟩ : ∃ f, fuel = f + 1 := ⟨fuel - 1, by omega⟩
    rw [← hrun.1, ← hrun.2] at hhalt
    obtain ⟨res, hres, hsends⟩ :=
      sendLoop_step_none attempts fuel' s req k (by simpa using hhalt)
    rw [hres]
    simp [hsends]
  | succ n ih =>
    intro fuel s req k sN reqN hrun hhalt hfuel
    unfold runFailures at hrun
    cases hstep : stepState attempts s req k with
    | none =>
      rw [hstep] at hrun
      exact absurd hrun (by simp)
    | some pr =>
      obtain ⟨s', req'⟩ := pr
      rw [hstep] at hrun
      dsimp only at hrun
      obtain ⟨fuel', rfl⟩ : ∃ f, fuel = f + 1 := ⟨fuel - 1, by omega⟩
      rw [sendLoop_step_some attempts fuel' s req k s' req' hstep]
      have hres := ih fuel' s' req' (k + 1) sN reqN hrun
        (by have : k + 1 + n = k + (n + 1) := by omega
            rw [this]; exact hhalt)
        (by omega)
      have harith : k + 1 + n + 1 = k + (n + 1) + 1 := by omega
      rw [← harith]
      exact hres

/-! Claim theorems. -/

/-- C1: in `TablesRetryPolicy.send`, retrying halts as soon as any one of the
four budgets (total, connect, read, status) goes negative after an increment
(`increment` then returns `False`), and the outcome surfaced to the caller is
the transport error when the last attempt failed with an `AzureError`, and
otherwise the last retryable HTTP response (annotated with the final
location mode). -/
theorem send_exhaustion_halts_and_surfaces :
    (∀ (s : RetrySettings) (req : Request) (resp : Option Response)
        (err : Option AzureErr),
      ((decrementCounts s req resp err).total < 0 ∨
       (decrementCounts s req resp err).connect < 0 ∨
       (decrementCounts s req resp err).read < 0 ∨
       (decrementCounts s req resp err).status < 0) →
      (increment s req resp err).more = false) ∧
    (∀ (attempts : Nat → Attempt) (fuel : Nat) (s : RetrySettings)
        (req : Request) (k : Nat) (e : AzureErr),
      attempts k = .exn e →
      (increment s req none (some e)).more = false →
      sendLoop attempts (fuel + 1) s req k =
        some { outcome := .raised e, sends := k + 1,
               settings := (increment s req none (some e)).settings }) ∧
    (∀ (attempts : Nat → Attempt) (fuel : Nat) (s : RetrySettings)
        (req : Request) (k : Nat) (r : Response),
      attempts k = .ok r → is_retry r s.mode = true →
      (increment s req (some r) none).more = false →
      sendLoop attempts (fuel + 1) s req k =
        some { outcome := .returned r (increment s req (some r) none).settings.mode,
               sends := k + 1,
               settings := (increment s req (some r) none).settings }) :=
  ⟨increment_halts_of_negative,
   fun attempts fuel s req k e hA hm => sendLoop_halt_exn attempts fuel s req k e hA hm,
   fun attempts fuel s req k r hA hr hm => sendLoop_halt_resp attempts fuel s req k r hA hr hm⟩

/-- Witness for C1: with the connect budget at 0, one more connect error
drives it negative, `increment` halts, and the loop raises that error. -/
theorem send_exhaustion_halts_and_surfaces_witness :
    ((decrementCounts exSettingsConnZero exReqGet none (some (exErrConnect 0))).connect < 0 ∧
     (increment exSettingsConnZero exReqGet none (some (exErrConnect 0))).more = false) ∧
    (exAttemptsConnectErr 0 = .exn (exErrConnect 0) ∧
     sendLoop exAttemptsConnectErr 3 exSettingsConnZero exReqGet 0 =
       some { outcome := .raised (exErrConnect 0), sends := 1,
              settings := (increment exSettingsConnZero exReqGet none
                (some (exErrConnect 0))).settings }) :=
  ⟨⟨by decide,
    send_exhaustion_halts_and_surfaces.1 exSettingsConnZero exReqGet none
      (some (exErrConnect 0)) (Or.inr (Or.inl (by decide)))⟩,
   ⟨rfl,
    send_exhaustion_halts_and_surfaces.2.1 exAttemptsConnectErr 2
      exSettingsConnZero exReqGet 0 (exErrConnect 0) rfl
      (send_exhaustion_halts_and_surfaces.1 exSettingsConnZero exReqGet none
        (some (exErrConnect 0)) (Or.inr (Or.inl (by decide))))⟩⟩

/-- C2: `is_retry` returns true exactly for status 404 in SECONDARY mode,
status 408, and statuses at least 500 other than 501 and 505; every other
status (the rest of [300,500) and everything below 300) is not retried. -/
theorem is_retry_status_characterization (r : Response) (mode : LocationMode) :
    is_retry r mode = true ↔
      ((r.status = 404 ∧ mode = .secondary) ∨ r.status = 408 ∨
        (500 ≤ r.status ∧ r.status ≠ 501 ∧ r.status ≠ 505)) := by
  unfold is_retry
  dsimp only
  split_ifs <;> simp_all <;> omega

/-- C8: the exponential backoff base is `initial_backoff` plus
`increment_base ^ count` (0 on the first attempt), the jitter interval is
`[max (backoff - jitter) 0, backoff + jitter]`, and with
`initial_backoff=15, increment_base=3, jitter=0` the intervals for attempt
counts 0, 1, 2 are degenerate at exactly 15, 18 and 24 seconds. -/
theorem exponential_backoff_spec :
    (get_backoff_range 15 3 0 0 = (15, 15) ∧
     get_backoff_range 15 3 0 1 = (18, 18) ∧
     get_backoff_range 15 3 0 2 = (24, 24)) ∧
    (∀ (ib base j : Int) (count : Nat),
      get_backoff_range ib base j count =
        (max (ib + (if count = 0 then 0 else base ^ count) - j) 0,
         ib + (if count = 0 then 0 else base ^ count) + j)) := by
  constructor
  · exact ⟨by decide, by decide, by decide⟩
  · intro ib base j count
    unfold get_backoff_range get_backoff_base
    dsimp only
    have hstart : (if ib + (if count = 0 then 0 else base ^ count) > j
        then ib + (if count = 0 then 0 else base ^ count) - j else 0) =
        max (ib + (if count = 0 then 0 else base ^ count) - j) 0 := by
      split_ifs <;> omega
    rw [hstart]

/-- C10: for an `AzureError` that is neither `ServiceRequestError` nor
`ServiceResponseError` and no response, `increment` decrements only the
total budget: connect, read, status and the history are left unchanged. -/
theorem unclassified_error_decrements_only_total
    (s : RetrySettings) (req : Request) (e : AzureErr)
    (hk : e.kind = .otherAzure) :
    (increment s req none (some e)).settings.total = s.total - 1 ∧
    (increment s req none (some e)).settings.connect = s.connect ∧
    (increment s req none (some e)).settings.read = s.read ∧
    (increment s req none (some e)).settings.status = s.status ∧
    (increment s req none (some e)).settings.history = s.history :=
  increment_other_error_frame s req e hk

/-- Witness for C10 at a concrete unclassified error. -/
theorem unclassified_error_decrements_only_total_witness :
    exErrOther.kind = .otherAzure ∧
    ((increment exSettingsDefault exReqGet none (some exErrOther)).settings.total =
       exSettingsDefault.total - 1 ∧
     (increment exSettingsDefault exReqGet none (some exErrOther)).settings.connect =
       exSettingsDefault.connect ∧
     (increment exSettingsDefault exReqGet none (some exErrOther)).settings.read =
       exSettingsDefault.read ∧
     (increment exSettingsDefault exReqGet none (some exErrOther)).settings.status =
       exSettingsDefault.status ∧
     (increment exSettingsDefault exReqGet none (some exErrOther)).settings.history =
       exSettingsDefault.history) :=
  ⟨rfl, unclassified_error_decrements_only_total exSettingsDefault exReqGet exErrOther rfl⟩

/-- C5: when a request body is a stream, the body position captured by
`configure_retries` is `none` whenever `tell()` fails, and `increment`
returns `False` (no further retry) whenever the position is `none` or the
seek back to it fails, regardless of the remaining budgets. -/
theorem unrewindable_stream_forces_exhaustion :
    (∀ (p : TablesRetryPolicyConfig) (opts : RequestOptions) (req : Request)
        (b : Body),
      req.body = some b → b.hasRead = true → b.tellResult = none →
      (configure_retries p opts req).bodyPosition = none) ∧
    (∀ (s : RetrySettings) (req : Request) (resp : Option Response)
        (err : Option AzureErr) (b : Body),
      req.body = some b → b.hasRead = true →
      (s.bodyPosition = none ∨ b.seekOk = false) →
      (increment s req resp err).more = false) := by
  constructor
  · intro p opts req b hb hr ht
    unfold configure_retries
    rw [hb]
    simp [hr, ht]
  · intro s req resp err b hb hr h
    exact increment_unrewindable s req resp err b hb hr h

/-- Witness for C5: a stream body whose `tell()` failed never retries. -/
theorem unrewindable_stream_forces_exhaustion_witness :
    (exReqStreamNoTell.body = some exBodyNoTell ∧
     exBodyNoTell.hasRead = true ∧ exBodyNoTell.tellResult = none) ∧
    (configure_retries {} {} exReqStreamNoTell).bodyPosition = none ∧
    (increment (configure_retries {} {} exReqStreamNoTell) exReqStreamNoTell
        none (some (exErrConnect 0))).more = false :=
  ⟨⟨rfl, rfl, rfl⟩,
   unrewindable_stream_forces_exhaustion.1 {} {} exReqStreamNoTell exBodyNoTell
     rfl rfl rfl,
   unrewindable_stream_forces_exhaustion.2 (configure_retries {} {} exReqStreamNoTell)
     exReqStreamNoTell none (some (exErrConnect 0)) exBodyNoTell rfl rfl
     (Or.inl (unrewindable_stream_forces_exhaustion.1 {} {} exReqStreamNoTell
       exBodyNoTell rfl rfl rfl))⟩

/-- C6: a PUT request never changes `location_mode`: a single `increment`
leaves the mode and the whole request untouched, and any complete run of the
retry loop ends with the settings still at the initial mode, whatever the
failover configuration. -/
theorem put_preserves_location_mode :
    (∀ (s : RetrySettings) (req : Request) (resp : Option Response)
        (err : Option AzureErr),
      req.method = "PUT" →
      (increment s req resp err).settings.mode = s.mode ∧
      (increment s req resp err).request = req) ∧
    (∀ (attempts : Nat → Attempt) (fuel : Nat) (s : RetrySettings)
        (req : Request) (k : Nat) (res : SendResult),
      req.method = "PUT" →
      sendLoop attempts fuel s req k = some res →
      res.settings.mode = s.mode) :=
  ⟨increment_put_frame,
   fun attempts fuel s req k res h hres =>
     sendLoop_put_mode attempts fuel s req k res h hres⟩

/-- Witness for C6: a PUT run with failover enabled and both hosts
configured still ends at the initial (primary) location mode. -/
theorem put_preserves_location_mode_witness :
    (exReqPut.method = "PUT" ∧
     (increment exSettingsBothHosts exReqPut none
        (some (exErrConnect 0))).settings.mode = exSettingsBothHosts.mode) ∧
    (sendLoop exAttemptsConnectErr 5 exSettingsC4 exReqPut 0 = some exC4PutRes ∧
     exC4PutRes.settings.mode = exSettingsC4.mode) :=
  ⟨⟨rfl,
    (put_preserves_location_mode.1 exSettingsBothHosts exReqPut none
      (some (exErrConnect 0)) rfl).1⟩,
   ⟨by decide,
    put_preserves_location_mode.2 exAttemptsConnectErr 5 exSettingsC4 exReqPut 0
      exC4PutRes rfl (by decide)⟩⟩

/-- Counterexample for C3: with the default configuration
(`retry_total=10`, `retry_connect=3`) the first N=4 sends all fail with
retryable transport errors, N is at most the configured total, the body is
not a stream — yet the policy performs only 4 sends, not N+1 = 5, because
the connect budget goes negative first. -/
theorem send_attempt_count_counterexample :
    exSettingsDefault.total = 10 ∧
    (sendSim exAttemptsFourErrs exSettingsDefault exReqGet).map
        SendResult.sends = some 4 ∧
    ¬ (sendSim exAttemptsFourErrs exSettingsDefault exReqGet).map
        SendResult.sends = some 5 := by
  refine ⟨by decide, by decide, by decide⟩

/-- C3 (amended): if the first N attempts fail retryably AND `increment`
grants a retry each time (no budget of any class goes negative and stream
bodies rewind), and the loop halts at attempt N (non-retryable response or
exhaustion there), then `send` performs exactly N+1 sends, with N at most
the configured total budget. -/
theorem send_attempt_count_amended
    (attempts : Nat → Attempt) (s : RetrySettings) (req : Request) (N : Nat)
    (sN : RetrySettings) (reqN : Request)
    (hN : (N : Int) ≤ s.total)
    (hrun : runFailures attempts N s req 0 = some (sN, reqN))
    (hhalt : stepState attempts sN reqN N = none) :
    (sendSim attempts s req).map SendResult.sends = some (N + 1) := by
  have hmain := sendLoop_after_failures attempts N (s.total.toNat + 2) s req 0
    sN reqN hrun (by simpa using hhalt) (by omega)
  simpa [sendSim] using hmain

/-- Witness for C3 (amended): two connect errors then a 200 gives exactly
three sends. -/
theorem send_attempt_count_amended_witness :
    ((2 : Int) ≤ exSettingsDefault.total ∧
     runFailures exAttemptsTwoErrs 2 exSettingsDefault exReqGet 0 =
       some (exRunTwo.1, exRunTwo.2) ∧
     stepState exAttemptsTwoErrs exRunTwo.1 exRunTwo.2 2 = none) ∧
    (sendSim exAttemptsTwoErrs exSettingsDefault exReqGet).map
        SendResult.sends = some 3 :=
  ⟨⟨by decide, by decide, by decide⟩,
   send_attempt_count_amended exAttemptsTwoErrs exSettingsDefault exReqGet 2
     exRunTwo.1 exRunTwo.2 (by decide) (by decide) (by decide)⟩

/-- Counterexample for C4: with `retry_total=3, retry_connect=1` and every
attempt failing with a transport error, the error surfaced is the SECOND
attempt's (there is no third attempt: only 2 sends happen), while the total
budget indeed still holds one credit. -/
theorem connect_budget_scenario_counterexample :
    (sendSim exAttemptsConnectErr exSettingsC4 exReqGet).map
        (fun res => (res.outcome, res.sends, res.settings.total,
                     res.settings.connect)) =
      some (.raised (exErrConnect 1), 2, 1, -1) ∧
    ¬ (sendSim exAttemptsConnectErr exSettingsC4 exReqGet).map
        SendResult.sends = some 3 := by
  refine ⟨by decide, by decide⟩

/-- C4 (amended): with `retry_total=3, retry_connect=1`, two consecutive
transport-phase errors drive the connect budget negative; the second
attempt's error is raised to the caller (exactly two sends), and at that
point the total budget still has one credit remaining — exhaustion is OR
across the four budgets. -/
theorem connect_budget_scenario_amended :
    exSettingsC4.total = 3 ∧ exSettingsC4.connect = 1 ∧
    (sendSim exAttemptsConnectErr exSettingsC4 exReqGet).map
        (fun res => (res.outcome, res.sends, res.settings.total,
                     res.settings.connect)) =
      some (.raised (exErrConnect 1), 2, 1, -1) := by
  refine ⟨by decide, by decide, by decide⟩

/-- Counterexample for C7: failover is NOT restricted to non-mutating
requests — a DELETE (mutating, non-PUT) request does fail over; and it does
not require both hosts to be configured — a hosts dict holding only the
primary entry still flips the mode (and then rewrites the netloc to `None`).
-/
theorem failover_condition_counterexample :
    (exReqDelete.method = "DELETE" ∧
     exSettingsBothHosts.mode = .primary ∧
     (increment exSettingsBothHosts exReqDelete none
        (some (exErrConnect 0))).settings.mode = .secondary) ∧
    (exSettingsOnlyPrimary.hosts = some exHostsOnlyPrimary ∧
     exHostsOnlyPrimary.secondary = none ∧
     (increment exSettingsOnlyPrimary exReqGet none
        (some (exErrConnect 0))).settings.mode = .secondary ∧
     (increment exSettingsOnlyPrimary exReqGet none
        (some (exErrConnect 0))).request.url.netloc = none) := by
  refine ⟨⟨rfl, rfl, by decide⟩, ⟨rfl, rfl, by decide, by decide⟩⟩

/-- C7 (amended): on a failure that does not exhaust the budgets,
`increment` flips `location_mode` and rewrites the URL netloc to the new
mode's configured host (preserving scheme, path, params, query, fragment,
method and body) if and only if the method is not PUT, `retry_to_secondary`
is enabled, and the hosts dict is present, non-empty, with all its values
non-empty; otherwise mode and request are left unchanged. -/
theorem failover_condition_amended
    (s : RetrySettings) (req : Request) (resp : Option Response)
    (err : Option AzureErr)
    (hnotex : is_exhausted (decrementCounts s req resp err) = false) :
    (failoverApplies s req = true →
      (increment s req resp err).settings.mode = s.mode.flip ∧
      (∀ hm, s.hosts = some hm →
        (increment s req resp err).request.url.netloc = hm.get s.mode.flip) ∧
      (increment s req resp err).request.url.scheme = req.url.scheme ∧
      (increment s req resp err).request.url.path = req.url.path ∧
      (increment s req resp err).request.url.params = req.url.params ∧
      (increment s req resp err).request.url.query = req.url.query ∧
      (increment s req resp err).request.url.fragment = req.url.fragment ∧
      (increment s req resp err).request.method = req.method ∧
      (increment s req resp err).request.body = req.body) ∧
    (failoverApplies s req = false →
      (increment s req resp err).settings.mode = s.mode ∧
      (increment s req resp err).request = req) :=
  ⟨fun happ => increment_failover_pos s req resp err hnotex happ,
   fun happ => increment_failover_neg s req resp err hnotex happ⟩

/-- Witness for C7 (amended): a GET with failover enabled and both hosts
configured flips from primary to secondary. -/
theorem failover_condition_amended_witness :
    (is_exhausted (decrementCounts exSettingsBothHosts exReqGet none
        (some (exErrConnect 0))) = false ∧
     failoverApplies exSettingsBothHosts exReqGet = true) ∧
    ((increment exSettingsBothHosts exReqGet none
        (some (exErrConnect 0))).settings.mode = exSettingsBothHosts.mode.flip ∧
     (increment exSettingsBothHosts exReqGet none
        (some (exErrConnect 0))).request.url.netloc =
       exHostsBoth.get exSettingsBothHosts.mode.flip) :=
  ⟨⟨by decide, by decide⟩,
   ⟨((failover_condition_amended exSettingsBothHosts exReqGet none
        (some (exErrConnect 0)) (by decide)).1 (by decide)).1,
    ((failover_condition_amended exSettingsBothHosts exReqGet none
        (some (exErrConnect 0)) (by decide)).1 (by decide)).2.1 exHostsBoth rfl⟩⟩

/-- C9: when a retry is aborted because a stream body cannot be rewound, on
a failover-eligible request the mode and the URL have already been flipped
before the abort, so the loop returns the last response annotated with a
location mode under which that response was never requested (the annotated
mode differs from the mode in effect during the final send). -/
theorem stream_abort_reports_flipped_location
    (attempts : Nat → Attempt) (fuel : Nat) (s : RetrySettings) (req : Request)
    (k : Nat) (r : Response) (b : Body)
    (hA : attempts k = .ok r) (hr : is_retry r s.mode = true)
    (happ : failoverApplies s req = true)
    (hb : req.body = some b) (hread : b.hasRead = true)
    (hpos : s.bodyPosition = none ∨ b.seekOk = false)
    (hnotex : is_exhausted (decrementCounts s req (some r) none) = false) :
    (increment s req (some r) none).more = false ∧
    (increment s req (some r) none).settings.mode = s.mode.flip ∧
    (∀ hm, s.hosts = some hm →
      (increment s req (some r) none).request.url.netloc = hm.get s.mode.flip) ∧
    sendLoop attempts (fuel + 1) s req k =
      some { outcome := .returned r s.mode.flip, sends := k + 1,
             settings := (increment s req (some r) none).settings } ∧
    s.mode.flip ≠ s.mode := by
  have hmore : (increment s req (some r) none).more = false :=
    increment_unrewindable s req (some r) none b hb hread hpos
  have hflip := increment_failover_pos s req (some r) none hnotex happ
  refine ⟨hmore, hflip.1, hflip.2.1, ?_, ?_⟩
  · have hhalt := sendLoop_halt_resp attempts fuel s req k r hA hr hmore
    rw [hflip.1] at hhalt
    exact hhalt
  · cases s.mode <;> simp [LocationMode.flip]

/-- Witness for C9: a 500 on a GET with an unseekable stream body, failover
enabled and both hosts configured: the returned response is annotated
secondary though it was fetched from primary. -/
theorem stream_abort_reports_flipped_location_witness :
    (exAttempts500 0 = .ok { status := 500, tag := 0 } ∧
     is_retry { status := 500, tag := 0 } exSettingsStreamBoth.mode = true ∧
     failoverApplies exSettingsStreamBoth exReqStreamNoTell = true ∧
     exSettingsStreamBoth.bodyPosition = none) ∧
    sendLoop exAttempts500 1 exSettingsStreamBoth exReqStreamNoTell 0 =
      some { outcome := .returned { status := 500, tag := 0 }
               exSettingsStreamBoth.mode.flip,
             sends := 1,
             settings := (increment exSettingsStreamBoth exReqStreamNoTell
               (some { status := 500, tag := 0 }) none).settings } :=
  ⟨⟨rfl, by decide, by decide, by decide⟩,
   (stream_abort_reports_flipped_location exAttempts500 0 exSettingsStreamBoth
     exReqStreamNoTell 0 { status := 500, tag := 0 } exBodyNoTell rfl
     (by decide) (by decide) rfl rfl (Or.inl (by decide))
     (by decide)).2.2.2.1⟩
